import Mathlib

/-!
Shallow embedding of `src/apps/demo-app/pages/api/check-signature.ts`.

The file models the Next.js API handler and its helper `checkGrants`
faithfully, including JavaScript truthiness of query values, the exact
error strings pushed by each validation branch, the order of the
validation passes, and the single un-paginated fetch performed by
`checkGrants`.  External collaborators (the CosmWasm client, the chain
REST endpoint, and the ADR-36 signature verifier) are modelled as an
explicit `World` of functions, since their code lives outside this
repository.
-/

namespace CheckSig

/-- A query-parameter value as delivered by the HTTP layer: a single
string, or an array of strings when the parameter is repeated.  An
absent parameter is `none` at the use sites (`Option QueryValue`). -/
inductive QueryValue where
  | str : String → QueryValue
  | arr : List String → QueryValue
deriving DecidableEq

/-- JavaScript truthiness test `!x` on a query value: `undefined` and
the empty string are falsy; any array (even an empty one) is truthy. -/
def falsy : Option QueryValue → Bool
  | none => true
  | some (QueryValue.str s) => s == ""
  | some (QueryValue.arr _) => false

/-- Models `typeof x === "string"` and the source's `isString` type
guard (line 46): true exactly for single-string values. -/
def isString : Option QueryValue → Bool
  | some (QueryValue.str _) => true
  | _ => false

/-- First projection of a string-valued query value; used only after
`isString` has succeeded, mirroring the TypeScript narrowing. -/
def strOf : Option QueryValue → String
  | some (QueryValue.str s) => s
  | _ => ""

/-- The `Filter` record of the grants JSON (line 37). -/
structure Filter where
  atType : String
deriving DecidableEq

/-- The `Limit` record of the grants JSON (line 32). -/
structure Limit where
  atType : String
  remaining : String
deriving DecidableEq

/-- The `GrantAuthorization` record of the grants JSON (line 26). -/
structure GrantAuthorization where
  contract : String
  limit : Limit
  filter : Filter
deriving DecidableEq

/-- The `Authorization` record of the grants JSON (line 21). -/
structure Authorization where
  atType : String
  grants : List GrantAuthorization
deriving DecidableEq

/-- The `Grant` record of the grants JSON (line 14). -/
structure Grant where
  granter : String
  grantee : String
  authorization : Authorization
  expiration : String
deriving DecidableEq

/-- The `Pagination` record of the grants JSON (line 41). -/
structure Pagination where
  next_key : Option String
  total : String
deriving DecidableEq

/-- A well-formed `GrantsResponse` (line 9). -/
structure GrantsResponse where
  grants : List Grant
  pagination : Pagination
deriving DecidableEq

/-- The JSON value actually produced by `res.json()` before the
unchecked `as GrantsResponse` cast (line 57): the `grants` field may be
absent or not a list (modelled as `none`), and likewise `pagination`. -/
structure RawGrantsResponse where
  grants : Option (List Grant)
  pagination : Option Pagination
deriving DecidableEq

/-- What the grants REST endpoint exposes for one grantee-keyed URL:
the page served to a query that carries no pagination key (the only
query the source ever issues), plus the further pages reachable through
`pagination.next_key`, which the source never requests. -/
structure RegistryPages where
  first : RawGrantsResponse
  rest : List GrantsResponse
deriving DecidableEq

/-- Line 58 of the source, the grant matcher:
`data.grants.map((grant) => grant.grantee).includes(grantee)`. -/
def matchGrants (gs : List Grant) (grantee : String) : Bool :=
  (gs.map fun g => g.grantee).contains grantee

/-- `checkGrants(granter, grantee)` (lines 50-59): one fetch of
`grants/grantee/` keyed by the `granter` argument with no pagination
key, an unchecked cast of the JSON body, then the grantee-membership
test of `matchGrants`.  When the `grants` field is absent or not a
list, `data.grants.map` throws a `TypeError`, modelled as
`Except.error`. -/
def checkGrants (registry : String → RegistryPages) (granter grantee : String) :
    Except String Bool :=
  match (registry granter).first.grants with
  | none => Except.error "TypeError: data.grants.map is not a function"
  | some gs => Except.ok (matchGrants gs grantee)

/-- Public-key material returned by `client.getAccount` (only `value`
is read by the handler). -/
structure Pubkey where
  type : String
  value : String
deriving DecidableEq

/-- An on-chain account as returned by `client.getAccount`; `pubkey`
is null for accounts that never revealed a key. -/
structure Account where
  address : String
  pubkey : Option Pubkey
deriving DecidableEq

/-- The external collaborators of the handler: the account store read
through the CosmWasm client, the grants REST registry, and the
signature verifier.  `verify address pubkeyValue message signature`
stands for the whole of `checkSignature` (lines 61-84): the hex/base64
decoding plus `verifyADR36Amino`, none of which this repository
defines. -/
structure World where
  getAccount : String → Option Account
  registry : String → RegistryPages
  verify : String → String → String → String → Bool

/-- `checkSignature` (lines 61-84), abstracted to the world's
verifier: its decoding and cryptography live in external packages. -/
def checkSignature (w : World) (address pubKeyValue messageString signatureText : String) :
    Bool :=
  w.verify address pubKeyValue messageString signatureText

/-- The injected chain configuration `testnetChainInfo.rpc`, an opaque
endpoint URL imported from `@burnt-labs/constants`. -/
def testnetChainInfo_rpc : String := "testnetChainInfo.rpc"

/-- An incoming HTTP request: its method and the four query
parameters the handler destructures (line 94). -/
structure Request where
  method : String
  userSessionAddress : Option QueryValue
  metaAccountAddress : Option QueryValue
  message : Option QueryValue
  signature : Option QueryValue
deriving DecidableEq

/-- A response body: an error list, the success payload, or the plain
text written by `res.end`. -/
inductive Body where
  | errors : List String → Body
  | valid : Bool → Body
  | text : String → Body
deriving DecidableEq

/-- An HTTP response: status code, body, and the headers set with
`res.setHeader` (Next.js accepts a list of values per header). -/
structure Response where
  status : Nat
  body : Body
  headers : List (String × List String)
deriving DecidableEq

/-- The externally visible steps the handler performs, recorded in
execution order. -/
inductive Step where
  | connect : String → Step
  | checkMethod : Step
  | validate : Step
  | getAccount : String → Step
  | verifySignature : Step
  | queryGrants : String → Step
deriving DecidableEq

/-- Steps that belong to the validation / resolution / verification /
grant-query phases (everything after the connection and the method
check). -/
def Step.isWork : Step → Bool
  | Step.validate => true
  | Step.getAccount _ => true
  | Step.verifySignature => true
  | Step.queryGrants _ => true
  | _ => false

/-- Models `res.status(code).json({ errors })`. -/
def respErrors (code : Nat) (errs : List String) : Response :=
  { status := code, body := Body.errors errs, headers := [] }

/-- Models `res.status(200).json({ valid })`. -/
def respValid (b : Bool) : Response :=
  { status := 200, body := Body.valid b, headers := [] }

/-- Models lines 186-187: `res.setHeader("Allow", ["GET"])` followed by
status 405 and the plain-text body. -/
def resp405 (method : String) : Response :=
  { status := 405, body := Body.text ("Method " ++ method ++ " Not Allowed"),
    headers := [("Allow", ["GET"])] }

/-- The presence pass (lines 97-112), verbatim.  Only the first check
fires on an absent value: the other three are guarded by
`typeof x === "string"`, which is false for `undefined`, and the
second pushes the string `"itemId is required"`. -/
def presenceErrors (req : Request) : List String :=
  (if falsy req.userSessionAddress then ["userSessionAddress is required"] else []) ++
  (if falsy req.metaAccountAddress && isString req.metaAccountAddress then
      ["itemId is required"] else []) ++
  (if falsy req.message && isString req.message then ["message is required"] else []) ++
  (if falsy req.signature && isString req.signature then ["signature is required"] else [])

/-- The API route `handler` (lines 86-189).  It connects to the RPC
endpoint, branches on the method, runs the presence pass, then the
four first-failing-wins type checks, then account resolution,
signature verification, and the grant query.  The first component
records the steps performed; `Except.error` models an uncaught
exception escaping the handler. -/
def handler (w : World) (req : Request) : List Step × Except String Response :=
  let t1 := [Step.connect testnetChainInfo_rpc, Step.checkMethod]
  if req.method = "GET" then
    let t2 := t1 ++ [Step.validate]
    let errs := presenceErrors req
    if errs.length > 0 then
      (t2, Except.ok (respErrors 400 errs))
    else if !(isString req.userSessionAddress) then
      (t2, Except.ok (respErrors 400 ["userSessionAddress is required to be a string"]))
    else if !(isString req.metaAccountAddress) then
      (t2, Except.ok (respErrors 400 ["metaAccountAddress is required to be a string"]))
    else if !(isString req.message) then
      (t2, Except.ok (respErrors 400 ["message is required to be a string"]))
    else if !(isString req.signature) then
      (t2, Except.ok (respErrors 400 ["signature is required to be a string"]))
    else
      let usa := strOf req.userSessionAddress
      let meta := strOf req.metaAccountAddress
      let msgStr := strOf req.message
      let sigStr := strOf req.signature
      let t3 := t2 ++ [Step.getAccount usa]
      match w.getAccount usa with
      | none => (t3, Except.ok (respErrors 404 ["account not found"]))
      | some account =>
        match account.pubkey with
        | none => (t3, Except.ok (respErrors 404 ["public key not found"]))
        | some pk =>
          let t4 := t3 ++ [Step.verifySignature]
          if checkSignature w usa pk.value msgStr sigStr then
            let t5 := t4 ++ [Step.queryGrants meta]
            match checkGrants w.registry meta usa with
            | Except.error e => (t5, Except.error e)
            | Except.ok b => (t5, Except.ok (respValid b))
          else
            (t4, Except.ok (respErrors 400 ["invalid signature"]))
  else
    (t1, Except.ok (resp405 req.method))

/-- Names for the four required query parameters, in the fixed order
the handler checks them. -/
inductive Param where
  | usa
  | meta
  | msg
  | sig
deriving DecidableEq

/-- The wire name of each parameter. -/
def Param.name : Param → String
  | Param.usa => "userSessionAddress"
  | Param.meta => "metaAccountAddress"
  | Param.msg => "message"
  | Param.sig => "signature"

/-- Read one of the four parameters off a request. -/
def getParam (req : Request) : Param → Option QueryValue
  | Param.usa => req.userSessionAddress
  | Param.meta => req.metaAccountAddress
  | Param.msg => req.message
  | Param.sig => req.signature

/-- Replace one of the four parameters of a request. -/
def setParam (req : Request) : Param → Option QueryValue → Request
  | Param.usa, v => { req with userSessionAddress := v }
  | Param.meta, v => { req with metaAccountAddress := v }
  | Param.msg, v => { req with message := v }
  | Param.sig, v => { req with signature := v }

/-- The exact error string the type pass reports for each field. -/
def typeErrMsg : Param → String
  | Param.usa => "userSessionAddress is required to be a string"
  | Param.meta => "metaAccountAddress is required to be a string"
  | Param.msg => "message is required to be a string"
  | Param.sig => "signature is required to be a string"

/-- The fields failing the `isString` check, in the handler's fixed
order. -/
def typeFailures (req : Request) : List Param :=
  [Param.usa, Param.meta, Param.msg, Param.sig].filter
    fun p => !(isString (getParam req p))

/-- Whether `needle` occurs at the start of `hay`. -/
def leadsWith : List Char → List Char → Bool
  | [], _ => true
  | _ :: _, [] => false
  | a :: as, b :: bs => a == b && leadsWith as bs

/-- Whether `needle` occurs contiguously anywhere in `hay`. -/
def occursIn (needle : List Char) : List Char → Bool
  | [] => needle.isEmpty
  | c :: rest => leadsWith needle (c :: rest) || occursIn needle rest

/-- Whether the string `hay` mentions `needle` as a contiguous
substring; used to formalise an error message naming a parameter. -/
def mentions (hay needle : String) : Bool :=
  occursIn needle.toList hay.toList

/-- A registry whose every URL serves the single well-formed page
`gs` and exposes no further pages; used to state page-level
properties of the matcher. -/
def onePageRegistry (gs : List Grant) : String → RegistryPages :=
  fun _ =>
    { first := { grants := some gs,
                 pagination := some { next_key := none, total := "" } },
      rest := [] }

/-- A registry serving a fixed raw first page. -/
def regOfRaw (r : RawGrantsResponse) : String → RegistryPages :=
  fun _ => { first := r, rest := [] }

/-- Build a grant record from its four fields. -/
def mkGrant (granter grantee : String) (auth : Authorization) (exp : String) : Grant :=
  { granter := granter, grantee := grantee, authorization := auth, expiration := exp }

/-- A grants response whose `grants` field is absent or not a list. -/
def rawMalformed : RawGrantsResponse := { grants := none, pagination := none }

/-- A concrete authorization payload. -/
def auth0 : Authorization :=
  { atType := "/cosmos.authz.v1beta1.GenericAuthorization", grants := [] }

/-- A different concrete authorization payload. -/
def authAlt : Authorization :=
  { atType := "/cosmwasm.wasm.v1.ContractExecutionAuthorization",
    grants := [{ contract := "xion1contract",
                 limit := { atType := "/cosmwasm.wasm.v1.MaxCallsLimit", remaining := "5" },
                 filter := { atType := "/cosmwasm.wasm.v1.AllowAllMessagesFilter" } }] }

/-- The one grant of the page used in the grant-matching claims:
granter `"X"`, grantee `"Y"`. -/
def grantXY : Grant :=
  { granter := "X", grantee := "Y", authorization := auth0, expiration := "never" }

/-- A grant agreeing with `grantXY` on the grantee only. -/
def grantQY : Grant :=
  { granter := "OTHER", grantee := "Y", authorization := authAlt, expiration := "2030" }

/-- The second registry page used against the pagination claim: it
holds the one qualifying grant. -/
def pageTwo : GrantsResponse :=
  { grants := [{ granter := "meta1", grantee := "sess1",
                 authorization := auth0, expiration := "null" }],
    pagination := { next_key := none, total := "1" } }

/-- A registry whose first page is empty but advertises a next page
(`next_key` set), with the qualifying grant only on the second page. -/
def regTwoPages : String → RegistryPages :=
  fun _ =>
    { first := { grants := some [],
                 pagination := some { next_key := some "PAGE2", total := "1" } },
      rest := [pageTwo] }

/-- A concrete world for witnesses: no accounts, an empty registry,
a verifier that always rejects. -/
def W0 : World :=
  { getAccount := fun _ => none,
    registry := fun _ => { first := { grants := some [], pagination := none }, rest := [] },
    verify := fun _ _ _ _ => false }

/-- A GET request whose four parameters are the given plain strings. -/
def baseReq (a b c d : String) : Request :=
  { method := "GET", userSessionAddress := some (QueryValue.str a),
    metaAccountAddress := some (QueryValue.str b),
    message := some (QueryValue.str c),
    signature := some (QueryValue.str d) }

/-- A GET request with `metaAccountAddress` and `message` absent and
the other two parameters supplied as non-empty strings. -/
def reqTwoAbsent : Request :=
  { method := "GET", userSessionAddress := some (QueryValue.str "addr1"),
    metaAccountAddress := none, message := none,
    signature := some (QueryValue.str "sigv") }

/-- A GET request with all four parameters absent. -/
def reqAllAbsent : Request :=
  { method := "GET", userSessionAddress := none, metaAccountAddress := none,
    message := none, signature := none }

/-- A GET request whose `metaAccountAddress` is the empty string and
whose other parameters are non-empty strings. -/
def reqEmptyMeta : Request :=
  { method := "GET", userSessionAddress := some (QueryValue.str "u1"),
    metaAccountAddress := some (QueryValue.str ""),
    message := some (QueryValue.str "6d"),
    signature := some (QueryValue.str "c2ln") }

/-- A GET request whose first two parameters are arrays (so they pass
the presence pass but fail the type pass) and whose last two are
non-empty strings. -/
def reqTwoArrays : Request :=
  { method := "GET", userSessionAddress := some (QueryValue.arr ["a", "b"]),
    metaAccountAddress := some (QueryValue.arr []),
    message := some (QueryValue.str "6d"),
    signature := some (QueryValue.str "c2ln") }

/-- A POST request. -/
def reqPost : Request :=
  { method := "POST", userSessionAddress := none, metaAccountAddress := none,
    message := none, signature := none }

/-- Every element the presence pass can ever push is one of its four
fixed strings. -/
theorem presence_mem_cases (req : Request) (e : String) (he : e ∈ presenceErrors req) :
    e = "userSessionAddress is required" ∨ e = "itemId is required" ∨
    e = "message is required" ∨ e = "signature is required" := by
  unfold presenceErrors at he
  simp only [List.mem_append] at he
  rcases he with ((h | h) | h) | h <;> (split at h <;> simp_all)

/-- C1.  The claim says the presence pass collects one error per absent
parameter.  The code does not: with `metaAccountAddress` and `message`
both absent (two or more absent parameters), the presence pass collects
nothing at all — its checks for those fields are guarded by
`typeof x === "string"`, false for `undefined` — and the response is
the type pass's single `metaAccountAddress` error; with all four
absent, the error list is the single `userSessionAddress` entry. -/
theorem c1_presence_not_collected (w : World) :
    reqTwoAbsent.metaAccountAddress = none ∧ reqTwoAbsent.message = none ∧
    presenceErrors reqTwoAbsent = [] ∧
    (handler w reqTwoAbsent).2 =
      Except.ok (respErrors 400 ["metaAccountAddress is required to be a string"]) ∧
    (handler w reqAllAbsent).2 =
      Except.ok (respErrors 400 ["userSessionAddress is required"]) :=
  ⟨rfl, rfl, rfl, rfl, rfl⟩

/-- C2 counterexample.  A page holding exactly the one grant
granter `"X"`, grantee `"Y"` (distinct) makes the check answer `true`
for the pair (granter `"Z"`, grantee `"Y"`), although no grant of that
pair is in the page — the claim demands `false` for every pair whose
grant is absent. -/
theorem c2_counterexample :
    ("X" : String) ≠ "Y" ∧
    (∀ g ∈ [grantXY], ¬(g.granter = "Z" ∧ g.grantee = "Y")) ∧
    checkGrants (onePageRegistry [grantXY]) "Z" "Y" = Except.ok true :=
  ⟨by decide, by decide, rfl⟩

/-- C2 as amended.  For a page of exactly the grant {granter X,
grantee Y} with X distinct from Y, the check answers true for (X, Y),
false for the reversed pair (Y, X), and for every pair (Z, W) its
answer is exactly whether W equals Y — true when W is Y for any
granter Z (even though no grant {Z, Y} is in the page) and false
exactly when W differs from Y: the granter component is ignored. -/
theorem c2_amended (X Y : String) (auth : Authorization) (exp : String)
    (hXY : X ≠ Y) :
    checkGrants (onePageRegistry [mkGrant X Y auth exp]) X Y = Except.ok true ∧
    checkGrants (onePageRegistry [mkGrant X Y auth exp]) Y X = Except.ok false ∧
    ∀ Z W, checkGrants (onePageRegistry [mkGrant X Y auth exp]) Z W = Except.ok (W == Y) := by
  refine ⟨?_, ?_, fun Z W => ?_⟩
  · simp [checkGrants, onePageRegistry, matchGrants, mkGrant, List.contains_cons]
  · simp [checkGrants, onePageRegistry, matchGrants, mkGrant, List.contains_cons, hXY]
  · by_cases h : W = Y
    · simp [checkGrants, onePageRegistry, matchGrants, mkGrant, List.contains_cons, h]
    · simp [checkGrants, onePageRegistry, matchGrants, mkGrant, List.contains_cons, h,
        beq_eq_false_iff_ne.mpr h]

/-- Witness for the amended C2 at the concrete page [{X, Y}] and the
pairs (X, Y), (Y, X) and every (Z, W). -/
theorem c2_amended_witness :
    (("X" : String) ≠ "Y") ∧
    (checkGrants (onePageRegistry [mkGrant "X" "Y" auth0 "never"]) "X" "Y" = Except.ok true ∧
      checkGrants (onePageRegistry [mkGrant "X" "Y" auth0 "never"]) "Y" "X" = Except.ok false ∧
      ∀ Z W, checkGrants (onePageRegistry [mkGrant "X" "Y" auth0 "never"]) Z W =
        Except.ok (W == "Y")) :=
  ⟨by decide, c2_amended "X" "Y" auth0 "never" (by decide)⟩

/-- C3.  The matcher answers true exactly when some grant record of
the page has its grantee field equal (string equality) to the supplied
grantee, and the result depends only on the list of grantee fields: two
pages agreeing on grantees — however much their granter, authorization
or expiration fields differ — and any two granter arguments give the
same answer. -/
theorem c3_matcher_grantee_only (gs : List Grant) (granter grantee : String) :
    (checkGrants (onePageRegistry gs) granter grantee = Except.ok true ↔
      ∃ g ∈ gs, g.grantee = grantee) ∧
    ∀ (gs2 : List Grant) (granter2 : String),
      gs.map (fun g => g.grantee) = gs2.map (fun g => g.grantee) →
      checkGrants (onePageRegistry gs2) granter2 grantee =
        checkGrants (onePageRegistry gs) granter grantee := by
  constructor
  · simp only [checkGrants, onePageRegistry, matchGrants, Except.ok.injEq]
    rw [show ((gs.map fun g => g.grantee).contains grantee = true ↔
        grantee ∈ gs.map fun g => g.grantee) from List.elem_iff]
    exact List.mem_map
  · intro gs2 granter2 h
    simp only [checkGrants, onePageRegistry, matchGrants]
    rw [h]

/-- Witness for C3: two one-grant pages differing in granter,
authorization and expiration but agreeing on the grantee give the same
answer. -/
theorem c3_witness :
    ([grantXY].map (fun g => g.grantee) = [grantQY].map (fun g => g.grantee)) ∧
    checkGrants (onePageRegistry [grantQY]) "Q" "Y" =
      checkGrants (onePageRegistry [grantXY]) "X" "Y" :=
  ⟨by decide, (c3_matcher_grantee_only [grantXY] "X" "Y").2 [grantQY] "Q" (by decide)⟩

/-- C4 counterexample.  On a response whose grants field is absent or
not a list, the check does not answer false: `data.grants.map` throws,
so the call ends in an error, contradicting the claim that neither
case raises one. -/
theorem c4_counterexample :
    checkGrants (regOfRaw rawMalformed) "granterA" "granteeB" =
      Except.error "TypeError: data.grants.map is not a function" ∧
    ∀ b : Bool, checkGrants (regOfRaw rawMalformed) "granterA" "granteeB" ≠ Except.ok b := by
  refine ⟨rfl, ?_⟩
  intro b h
  simp [checkGrants, regOfRaw, rawMalformed] at h

/-- C4 as amended.  An empty grant list yields the value false with no
error, but a malformed grant list (grants field absent or not a list)
raises a type error instead of yielding false. -/
theorem c4_amended (r : RawGrantsResponse) (granter grantee : String) :
    (r.grants = some [] → checkGrants (regOfRaw r) granter grantee = Except.ok false) ∧
    (r.grants = none → checkGrants (regOfRaw r) granter grantee =
      Except.error "TypeError: data.grants.map is not a function") := by
  constructor <;> intro h <;> simp [checkGrants, regOfRaw, h, matchGrants]

/-- Witness for the amended C4 at a concrete empty grant list. -/
theorem c4_witness :
    (RawGrantsResponse.grants { grants := some [], pagination := none } = some []) ∧
    checkGrants (regOfRaw { grants := some [], pagination := none }) "a" "b" =
      Except.ok false :=
  ⟨rfl, (c4_amended { grants := some [], pagination := none } "a" "b").1 rfl⟩

/-- C5 counterexample.  A registry whose first page is empty but
advertises a further page through a non-null pagination cursor, with
the qualifying grant only on that second page, still makes the check
answer false: the source fetches a single page and never follows the
cursor. -/
theorem c5_counterexample :
    (regTwoPages "meta1").first.pagination =
      some { next_key := some "PAGE2", total := "1" } ∧
    (∃ page ∈ (regTwoPages "meta1").rest, ∃ g ∈ page.grants, g.grantee = "sess1") ∧
    checkGrants regTwoPages "meta1" "sess1" = Except.ok false :=
  ⟨rfl, by decide, rfl⟩

/-- C5 as amended.  Only the first page is ever consulted: whenever it
carries no matching grantee, the check answers false even though a
qualifying grant sits on a later page of the registry. -/
theorem c5_amended (reg : String → RegistryPages) (granter grantee : String)
    (gs : List Grant) (h1 : (reg granter).first.grants = some gs)
    (h2 : matchGrants gs grantee = false)
    (_h3 : ∃ page ∈ (reg granter).rest, ∃ g ∈ page.grants, g.grantee = grantee) :
    checkGrants reg granter grantee = Except.ok false := by
  simp [checkGrants, h1, h2]

/-- Witness for the amended C5 at the concrete two-page registry. -/
theorem c5_witness :
    ((regTwoPages "meta1").first.grants = some [] ∧
      matchGrants [] "sess1" = false ∧
      ∃ page ∈ (regTwoPages "meta1").rest, ∃ g ∈ page.grants, g.grantee = "sess1") ∧
    checkGrants regTwoPages "meta1" "sess1" = Except.ok false :=
  ⟨⟨rfl, rfl, by decide⟩,
    c5_amended regTwoPages "meta1" "sess1" [] rfl rfl (by decide)⟩

/-- C6.  For each of the four parameters, a GET request that omits
just that parameter, or supplies it as an array, while the other three
are plain non-empty strings, is answered 400 with an error entry that
mentions that parameter's name. -/
theorem c6_missing_or_array_400 (w : World) (p : Param) (bad : Option QueryValue)
    (a b c d : String)
    (ha : a ≠ "") (hb : b ≠ "") (hc : c ≠ "") (hd : d ≠ "")
    (hbad : bad = none ∨ ∃ l, bad = some (QueryValue.arr l)) :
    ∃ errs,
      (handler w (setParam (baseReq a b c d) p bad)).2 = Except.ok (respErrors 400 errs) ∧
      ∃ e, e ∈ errs ∧ mentions e p.name = true := by
  have hfa : (a == "") = false := beq_eq_false_iff_ne.mpr ha
  have hfb : (b == "") = false := beq_eq_false_iff_ne.mpr hb
  have hfc : (c == "") = false := beq_eq_false_iff_ne.mpr hc
  have hfd : (d == "") = false := beq_eq_false_iff_ne.mpr hd
  rcases hbad with rfl | ⟨l, rfl⟩ <;> cases p
  · exact ⟨["userSessionAddress is required"],
      by simp [handler, setParam, baseReq, presenceErrors, falsy, isString, hfa, hfb, hfc, hfd],
      "userSessionAddress is required", List.mem_singleton.mpr rfl, by decide⟩
  · exact ⟨["metaAccountAddress is required to be a string"],
      by simp [handler, setParam, baseReq, presenceErrors, falsy, isString, hfa, hfb, hfc, hfd],
      "metaAccountAddress is required to be a string", List.mem_singleton.mpr rfl, by decide⟩
  · exact ⟨["message is required to be a string"],
      by simp [handler, setParam, baseReq, presenceErrors, falsy, isString, hfa, hfb, hfc, hfd],
      "message is required to be a string", List.mem_singleton.mpr rfl, by decide⟩
  · exact ⟨["signature is required to be a string"],
      by simp [handler, setParam, baseReq, presenceErrors, falsy, isString, hfa, hfb, hfc, hfd],
      "signature is required to be a string", List.mem_singleton.mpr rfl, by decide⟩
  · exact ⟨["userSessionAddress is required to be a string"],
      by simp [handler, setParam, baseReq, presenceErrors, falsy, isString, hfa, hfb, hfc, hfd],
      "userSessionAddress is required to be a string", List.mem_singleton.mpr rfl, by decide⟩
  · exact ⟨["metaAccountAddress is required to be a string"],
      by simp [handler, setParam, baseReq, presenceErrors, falsy, isString, hfa, hfb, hfc, hfd],
      "metaAccountAddress is required to be a string", List.mem_singleton.mpr rfl, by decide⟩
  · exact ⟨["message is required to be a string"],
      by simp [handler, setParam, baseReq, presenceErrors, falsy, isString, hfa, hfb, hfc, hfd],
      "message is required to be a string", List.mem_singleton.mpr rfl, by decide⟩
  · exact ⟨["signature is required to be a string"],
      by simp [handler, setParam, baseReq, presenceErrors, falsy, isString, hfa, hfb, hfc, hfd],
      "signature is required to be a string", List.mem_singleton.mpr rfl, by decide⟩

/-- Witness for C6: userSessionAddress omitted from an otherwise valid
request. -/
theorem c6_witness :
    (("a" : String) ≠ "" ∧ ("b" : String) ≠ "" ∧ ("c" : String) ≠ "" ∧
      ("d" : String) ≠ "" ∧
      ((none : Option QueryValue) = none ∨
        ∃ l, (none : Option QueryValue) = some (QueryValue.arr l))) ∧
    ∃ errs,
      (handler W0 (setParam (baseReq "a" "b" "c" "d") Param.usa none)).2 =
        Except.ok (respErrors 400 errs) ∧
      ∃ e, e ∈ errs ∧ mentions e Param.usa.name = true :=
  ⟨⟨by decide, by decide, by decide, by decide, Or.inl rfl⟩,
    c6_missing_or_array_400 W0 Param.usa none "a" "b" "c" "d"
      (by decide) (by decide) (by decide) (by decide) (Or.inl rfl)⟩

/-- C7.  When the presence pass reports nothing and at least two
fields fail the string-type check, the response is a 400 carrying
exactly the error of the first failing field in the fixed order
userSessionAddress, metaAccountAddress, message, signature; no later
failing field's error appears. -/
theorem c7_type_pass_first_wins (w : World) (req : Request) (p : Param)
    (rest : List Param) (hm : req.method = "GET")
    (hp : presenceErrors req = []) (ht : typeFailures req = p :: rest)
    (hr : rest ≠ []) :
    (handler w req).2 = Except.ok (respErrors 400 [typeErrMsg p]) ∧
    ∀ q ∈ rest, typeErrMsg q ≠ typeErrMsg p := by
  cases hu : isString req.userSessionAddress <;>
  cases hm2 : isString req.metaAccountAddress <;>
  cases hg : isString req.message <;>
  cases hs : isString req.signature <;>
  simp only [typeFailures, getParam, List.filter, hu, hm2, hg, hs, Bool.not_true,
    Bool.not_false, List.cons.injEq] at ht
  all_goals obtain ⟨rfl, rfl⟩ := ht
  all_goals
    first
      | exact absurd rfl hr
      | exact ⟨by simp [handler, hm, hp, hu, hm2, hg, hs, typeErrMsg], by decide⟩

/-- Witness for C7: the first two parameters supplied as arrays, both
failing the type pass; only the userSessionAddress error is reported. -/
theorem c7_witness :
    (reqTwoArrays.method = "GET" ∧ presenceErrors reqTwoArrays = [] ∧
      typeFailures reqTwoArrays = Param.usa :: [Param.meta] ∧
      ([Param.meta] : List Param) ≠ []) ∧
    ((handler W0 reqTwoArrays).2 = Except.ok (respErrors 400 [typeErrMsg Param.usa]) ∧
      ∀ q ∈ [Param.meta], typeErrMsg q ≠ typeErrMsg Param.usa) :=
  ⟨⟨rfl, rfl, rfl, by decide⟩,
    c7_type_pass_first_wins W0 reqTwoArrays Param.usa [Param.meta] rfl rfl rfl (by decide)⟩

/-- C8.  Any non-GET request is answered 405 with the body text
naming the method, the single header Allow: GET, and a step trace
holding only the connection and the method check — no validation,
account resolution, signature verification or grant query happens. -/
theorem c8_non_get_405 (w : World) (req : Request) (h : req.method ≠ "GET") :
    handler w req = ([Step.connect testnetChainInfo_rpc, Step.checkMethod],
      Except.ok (resp405 req.method)) ∧
    ∀ s ∈ (handler w req).1, Step.isWork s = false := by
  have h1 : handler w req = ([Step.connect testnetChainInfo_rpc, Step.checkMethod],
      Except.ok (resp405 req.method)) := by
    simp only [handler]
    rw [if_neg h]
  refine ⟨h1, ?_⟩
  rw [h1]
  intro s hs
  simp only [List.mem_cons, List.not_mem_nil, or_false] at hs
  rcases hs with rfl | rfl <;> rfl

/-- Witness for C8 at a concrete POST request. -/
theorem c8_witness :
    (reqPost.method ≠ "GET") ∧
    (handler W0 reqPost = ([Step.connect testnetChainInfo_rpc, Step.checkMethod],
      Except.ok (resp405 reqPost.method)) ∧
    ∀ s ∈ (handler W0 reqPost).1, Step.isWork s = false) :=
  ⟨by decide, c8_non_get_405 W0 reqPost (by decide)⟩

/-- C9.  Whenever metaAccountAddress is supplied as the empty string,
the presence pass fails for it and the 400 error list carries the
string itemId is required, and no entry of the list mentions the
parameter name metaAccountAddress at all. -/
theorem c9_empty_meta_itemid (w : World) (req : Request) (hm : req.method = "GET")
    (hmeta : req.metaAccountAddress = some (QueryValue.str "")) :
    ∃ errs, (handler w req).2 = Except.ok (respErrors 400 errs) ∧
      "itemId is required" ∈ errs ∧
      ∀ e ∈ errs, mentions e "metaAccountAddress" = false := by
  have hmem : "itemId is required" ∈ presenceErrors req := by
    unfold presenceErrors
    simp [hmeta, falsy, isString]
  have hlen : (presenceErrors req).length > 0 :=
    List.length_pos.mpr (List.ne_nil_of_mem hmem)
  refine ⟨presenceErrors req, ?_, hmem, ?_⟩
  · simp only [handler]
    rw [if_pos hm, if_pos hlen]
  · intro e he
    rcases presence_mem_cases req e he with h | h | h | h <;> subst h <;> decide

/-- Witness for C9 at a concrete request with empty
metaAccountAddress. -/
theorem c9_witness :
    (reqEmptyMeta.method = "GET" ∧
      reqEmptyMeta.metaAccountAddress = some (QueryValue.str "")) ∧
    ∃ errs, (handler W0 reqEmptyMeta).2 = Except.ok (respErrors 400 errs) ∧
      "itemId is required" ∈ errs ∧
      ∀ e ∈ errs, mentions e "metaAccountAddress" = false :=
  ⟨⟨rfl, rfl⟩, c9_empty_meta_itemid W0 reqEmptyMeta rfl rfl⟩

/-- C10.  On every request whatsoever — non-GET ones and ones with
missing parameters included — the handler's very first step is the
connection to the ledger RPC endpoint, taken before the method check
and before any validation. -/
theorem c10_connect_first (w : World) (req : Request) :
    ∃ rest : List Step,
      (handler w req).1 = Step.connect testnetChainInfo_rpc :: Step.checkMethod :: rest := by
  simp only [handler]
  repeat' split
  all_goals exact ⟨_, rfl⟩

end CheckSig
